import Mathlib

/-!
Shallow embedding of the CDRA (Carbon Dioxide Removal Assembly) simulation
core found in DaphneATsim/CDRA.py, together with the unit conversion helpers
from DaphneATsim/simulation.py.  Machine reals are modelled as exact
rationals; the integer tick counter is a natural number.  Python dict state
with a fixed four-bed key set is modelled with a four-constructor inductive
type; the one place where open string keys matter (heater failure injection
into the heater_on dict) is additionally modelled with an association list
keyed by strings, mirroring Python dict assignment semantics.
-/

namespace CDRA

/-- The four beds of the assembly, the fixed key set of the saturation,
adsorption_eff and heater_on dictionaries in CDRA.py. -/
inductive Bed : Type
  | desiccant_1
  | desiccant_3
  | sorbent_2
  | sorbent_4
deriving DecidableEq

/-- SIM_DURATION_SEC and TIME_END in CDRA.py. -/
def TIME_END : Nat := 10000

/-- TIME_STEP_SEC and DT in CDRA.py (time step size, seconds). -/
def DT : ℚ := 1

/-- M_CABIN in CDRA.py: kg of dry air in the cabin. -/
def M_CABIN : ℚ := 100

/-- MOISTURE_CONTENT_INIT in CDRA.py. -/
def MOISTURE_CONTENT_INIT : ℚ := 15/1000

/-- CO2_CONTENT_INIT in CDRA.py (kg CO2 per kg dry air). -/
def CO2_CONTENT_INIT : ℚ := 4/1000

/-- CO2_INPUT_MEAN in CDRA.py: 0.00002 * 30. -/
def CO2_INPUT_MEAN : ℚ := (2/100000) * 30

/-- INITIAL_SATURATION_LEVEL in CDRA.py. -/
def INITIAL_SATURATION_LEVEL : ℚ := 0

/-- REGENERATION_RATE_MULTIPLIER in CDRA.py. -/
def REGENERATION_RATE_MULTIPLIER : ℚ := 2

/-- AIR_FLOW_RATE in CDRA.py: nominal air flow, kg per second. -/
def AIR_FLOW_RATE : ℚ := 1

/-- VALVE_SWITCH_INTERVAL in CDRA.py. -/
def VALVE_SWITCH_INTERVAL : Nat := 200

/-- SATURATION_TIME_CONSTANT in CDRA.py. -/
def SATURATION_TIME_CONSTANT : ℚ := 600

/-- BASE_ADSORPTION_EFF in CDRA.py. -/
def BASE_ADSORPTION_EFF : ℚ := 5/100

/-- MAX_ADSORPTION_EFF_INCREMENT in CDRA.py. -/
def MAX_ADSORPTION_EFF_INCREMENT : ℚ := 15/100

/-- DESORPTION_MULTIPLIER in CDRA.py. -/
def DESORPTION_MULTIPLIER : ℚ := 105/100

/-- The FAILURE_SCENARIO dictionary of CDRA.py as a record.  The unused
sensor_failure entry (never read by the core) is omitted. -/
structure FailureScenario : Type where
  filter_saturation : Bool
  filter_saturation_start : Nat
  filter_saturation_end : Nat
  heater_failure : List Bed
  valve_stuck : Bool
  valve_stuck_start : Nat
  valve_stuck_end : Nat
  fan_degraded : Bool
  fan_degraded_start : Nat
  fan_degraded_end : Nat
  degraded_flow_rate : ℚ

/-- Default FAILURE_SCENARIO values of CDRA.py (all failures inactive). -/
def defaultScenario : FailureScenario where
  filter_saturation := false
  filter_saturation_start := TIME_END
  filter_saturation_end := TIME_END
  heater_failure := []
  valve_stuck := false
  valve_stuck_start := TIME_END
  valve_stuck_end := TIME_END
  fan_degraded := false
  fan_degraded_start := 1000
  fan_degraded_end := TIME_END
  degraded_flow_rate := 1

/-- CDRAState of CDRA.py (history, used only for plotting, is omitted;
valve_state is its single boolean entry path_1_active). -/
structure CDRAState : Type where
  saturation : Bed → ℚ
  adsorption_eff : Bed → ℚ
  time : Nat
  air_flow_rate : ℚ
  moisture_content : ℚ
  co2_content : ℚ
  co2_removed_total : ℚ
  heater_on : Bed → Bool
  path_1_active : Bool

/-- CDRAState.__init__ in CDRA.py. -/
def initState : CDRAState where
  saturation := fun _ => INITIAL_SATURATION_LEVEL
  adsorption_eff := fun _ => BASE_ADSORPTION_EFF
  time := 0
  air_flow_rate := AIR_FLOW_RATE
  moisture_content := MOISTURE_CONTENT_INIT
  co2_content := CO2_CONTENT_INIT
  co2_removed_total := 0
  heater_on := fun _ => false
  path_1_active := true

/-- The valve_stuck window test in control (CDRA.py line 82). -/
def valveStuckAt (scen : FailureScenario) (t : Nat) : Prop :=
  scen.valve_stuck = true ∧ scen.valve_stuck_start ≤ t ∧ t ≤ scen.valve_stuck_end

instance (scen : FailureScenario) (t : Nat) : Decidable (valveStuckAt scen t) := by
  unfold valveStuckAt; infer_instance

/-- The valve flip condition in control (CDRA.py line 84). -/
def flipCond (scen : FailureScenario) (t : Nat) : Prop :=
  ¬ valveStuckAt scen t ∧ t % VALVE_SWITCH_INTERVAL = 0 ∧ t ≠ 0

instance (scen : FailureScenario) (t : Nat) : Decidable (flipCond scen t) := by
  unfold flipCond; infer_instance

/-- Heater commands derived from the valve position (CDRA.py lines 89-92). -/
def heaterCmd (path : Bool) : Bed → Bool
  | Bed.desiccant_1 => ! path
  | Bed.desiccant_3 => path
  | Bed.sorbent_2 => ! path
  | Bed.sorbent_4 => path

/-- control in CDRA.py: possibly flip the valve, then derive the heater
commands from the (possibly just flipped) valve position. -/
def control (scen : FailureScenario) (s : CDRAState) : CDRAState :=
  let path := if flipCond scen s.time then ! s.path_1_active else s.path_1_active
  { s with path_1_active := path, heater_on := heaterCmd path }

/-- The filter_saturation window test in apply_failures (CDRA.py 99-100). -/
def filterSatActiveAt (scen : FailureScenario) (t : Nat) : Prop :=
  scen.filter_saturation = true ∧
    scen.filter_saturation_start ≤ t ∧ t ≤ scen.filter_saturation_end

instance (scen : FailureScenario) (t : Nat) : Decidable (filterSatActiveAt scen t) := by
  unfold filterSatActiveAt; infer_instance

/-- The fan_degraded window test in apply_failures (CDRA.py 112-113). -/
def fanDegradedAt (scen : FailureScenario) (t : Nat) : Prop :=
  scen.fan_degraded = true ∧
    scen.fan_degraded_start ≤ t ∧ t ≤ scen.fan_degraded_end

instance (scen : FailureScenario) (t : Nat) : Decidable (fanDegradedAt scen t) := by
  unfold fanDegradedAt; infer_instance

/-- Pointwise update of one entry of the heater_on dictionary. -/
def setHeater (f : Bed → Bool) (k : Bed) (v : Bool) : Bed → Bool :=
  fun b => if b = k then v else f b

/-- apply_failures in CDRA.py: filter saturation overlay, then the heater
failure overlay (a loop of dict assignments to distinct keys), then the fan
degradation overlay which rewrites air_flow_rate every call. -/
def apply_failures (scen : FailureScenario) (s : CDRAState) : CDRAState :=
  let s1 :=
    if filterSatActiveAt scen s.time then
      { s with
        saturation := fun _ => 1
        adsorption_eff := fun _ => BASE_ADSORPTION_EFF + MAX_ADSORPTION_EFF_INCREMENT * 1 }
    else s
  let s2 :=
    { s1 with
      heater_on := scen.heater_failure.foldl (fun f k => setHeater f k false) s1.heater_on }
  if fanDegradedAt scen s.time then
    { s2 with air_flow_rate := scen.degraded_flow_rate }
  else
    { s2 with air_flow_rate := AIR_FLOW_RATE }

/-- One adsorbing-bed saturation update (CDRA.py lines 127-128, 136-137). -/
def adsorb_step (x : ℚ) : ℚ :=
  min (x + DT / SATURATION_TIME_CONSTANT) 1

/-- One regenerating-bed saturation update (CDRA.py lines 131-133, 140-142). -/
def regen_step (x : ℚ) : ℚ :=
  max (x - REGENERATION_RATE_MULTIPLIER * DT / SATURATION_TIME_CONSTANT) 0

/-- The net effect of the per-bed saturation updates in timestep
(CDRA.py lines 125-142).  The source performs sequential dict assignments to
the four distinct keys, so the combined effect is this per-key function. -/
def newSat (s : CDRAState) : Bed → ℚ := fun b =>
  match s.path_1_active, b with
  | true, Bed.desiccant_1 => adsorb_step (s.saturation Bed.desiccant_1)
  | true, Bed.sorbent_2 => adsorb_step (s.saturation Bed.sorbent_2)
  | true, Bed.desiccant_3 =>
      if s.heater_on Bed.desiccant_3 then regen_step (s.saturation Bed.desiccant_3)
      else s.saturation Bed.desiccant_3
  | true, Bed.sorbent_4 =>
      if s.heater_on Bed.sorbent_4 then regen_step (s.saturation Bed.sorbent_4)
      else s.saturation Bed.sorbent_4
  | false, Bed.desiccant_3 => adsorb_step (s.saturation Bed.desiccant_3)
  | false, Bed.sorbent_4 => adsorb_step (s.saturation Bed.sorbent_4)
  | false, Bed.desiccant_1 =>
      if s.heater_on Bed.desiccant_1 then regen_step (s.saturation Bed.desiccant_1)
      else s.saturation Bed.desiccant_1
  | false, Bed.sorbent_2 =>
      if s.heater_on Bed.sorbent_2 then regen_step (s.saturation Bed.sorbent_2)
      else s.saturation Bed.sorbent_2

/-- The adsorption efficiency recomputation in timestep (CDRA.py 144-145),
applied to the already updated saturations. -/
def newEff (s : CDRAState) : Bed → ℚ := fun b =>
  BASE_ADSORPTION_EFF + MAX_ADSORPTION_EFF_INCREMENT * (1 - newSat s b)

/-- The efficiency selection in timestep (CDRA.py lines 149-152). -/
def etaOf (s : CDRAState) : ℚ :=
  if s.path_1_active then
    if s.heater_on Bed.sorbent_2 = false then s.adsorption_eff Bed.sorbent_2
    else -DESORPTION_MULTIPLIER
  else
    if s.heater_on Bed.sorbent_4 = false then s.adsorption_eff Bed.sorbent_4
    else -DESORPTION_MULTIPLIER

/-- timestep in CDRA.py: run apply_failures, update saturations and
efficiencies, select the outlet efficiency and return (C_out, flow)
together with the updated state. -/
def timestep (scen : FailureScenario) (s0 : CDRAState) : CDRAState × ℚ × ℚ :=
  let s1 := apply_failures scen s0
  let s2 := { s1 with saturation := newSat s1, adsorption_eff := newEff s1 }
  let eta_co2 := etaOf s2
  let C_in := s2.co2_content
  let C_out := if 0 ≤ eta_co2 then C_in * (1 - eta_co2) else C_in * eta_co2
  (s2, C_out, s2.air_flow_rate)

/-- update_cabin_concentration in CDRA.py (lines 164-170). -/
def update_cabin_concentration (s : CDRAState) (C_out flow : ℚ) : CDRAState :=
  { s with
    co2_content :=
      (1 - flow / M_CABIN) * s.co2_content + (flow / M_CABIN) * C_out +
        CO2_INPUT_MEAN / M_CABIN }

/-- One iteration of the main loop in CDRA.py (lines 244-275): control, then
timestep, then the cabin mixing update, then the removed-CO2 accumulator and
the tick counter increment. -/
def tick (scen : FailureScenario) (s : CDRAState) : CDRAState :=
  let s1 := control scen s
  let r := timestep scen s1
  let s3 := update_cabin_concentration r.1 r.2.1 r.2.2
  let removed := max (s1.co2_content - s3.co2_content) 0
  { s3 with co2_removed_total := s3.co2_removed_total + removed, time := s3.time + 1 }

/-- The state after n iterations of the main loop, the failure scenario of
each iteration supplied by the driver (a constant function models a fixed
scenario). -/
def run (scens : Nat → FailureScenario) : Nat → CDRAState
  | 0 => initState
  | n + 1 => tick (scens n) (run scens n)

/-- The fixed no-failure scenario stream. -/
def nominalScens : Nat → FailureScenario := fun _ => defaultScenario

/-- The CO2-active sorbent of the current path (CDRA.py lines 149-152). -/
def activeSorbent (path : Bool) : Bed :=
  if path then Bed.sorbent_2 else Bed.sorbent_4

/-- State after control and the physics update of tick n, before mixing. -/
def afterPhysics (scens : Nat → FailureScenario) (n : Nat) : CDRAState :=
  (timestep (scens n) (control (scens n) (run scens n))).1

/-- The outlet concentration C_out returned by timestep at tick n. -/
def outletConc (scens : Nat → FailureScenario) (n : Nat) : ℚ :=
  (timestep (scens n) (control (scens n) (run scens n))).2.1

/-- The regenerating pair of beds for a given valve position. -/
def regenPair (path : Bool) (b : Bed) : Prop :=
  if path then b = Bed.desiccant_3 ∨ b = Bed.sorbent_4
  else b = Bed.desiccant_1 ∨ b = Bed.sorbent_2

/-- STANDARD_PRESSURE_MMHG in simulation_config.py. -/
def STANDARD_PRESSURE_MMHG : ℚ := 760

/-- MOLAR_MASS_CO2 in simulation_config.py (g per mol). -/
def MOLAR_MASS_CO2 : ℚ := 4401/100

/-- MOLAR_MASS_AIR in simulation_config.py (g per mol). -/
def MOLAR_MASS_AIR : ℚ := 2897/100

/-- The mmHg-to-Pa factor 133.322 used in simulation.py. -/
def MMHG_TO_PA : ℚ := 133322/1000

/-- mmhg_to_kg_per_kg_air in simulation.py. -/
def mmhg_to_kg_per_kg_air (co2_mmhg : ℚ) : ℚ :=
  let co2_pa := co2_mmhg * MMHG_TO_PA
  let co2_mol_per_mol_air := co2_pa / (STANDARD_PRESSURE_MMHG * MMHG_TO_PA)
  co2_mol_per_mol_air * (MOLAR_MASS_CO2 / MOLAR_MASS_AIR)

/-- kg_per_kg_air_to_mmhg in simulation.py. -/
def kg_per_kg_air_to_mmhg (co2_kg_per_kg_air : ℚ) : ℚ :=
  let co2_mol_per_mol_air := co2_kg_per_kg_air * (MOLAR_MASS_AIR / MOLAR_MASS_CO2)
  let co2_pa := co2_mol_per_mol_air * (STANDARD_PRESSURE_MMHG * MMHG_TO_PA)
  co2_pa / MMHG_TO_PA

/-- The scenario of the filter-saturation concrete case: filter_saturation
active on the tick window [5, 15], everything else at default. -/
def filterScen : FailureScenario :=
  { defaultScenario with
    filter_saturation := true
    filter_saturation_start := 5
    filter_saturation_end := 15 }

/-- The fixed filter-saturation scenario stream. -/
def filterScens : Nat → FailureScenario := fun _ => filterScen

/-- Python dict assignment d[k] = v on an association list: overwrite the
entry when the key is present, append a new entry when it is not. -/
def dictAssign (d : List (String × Bool)) (k : String) (v : Bool) :
    List (String × Bool) :=
  if d.any (fun p => p.1 == k) then
    d.map (fun p => if p.1 == k then (p.1, v) else p)
  else
    d ++ [(k, v)]

/-- The heater failure loop of apply_failures (CDRA.py lines 108-109) over
the string-keyed heater_on dict, with Python dict assignment semantics. -/
def heater_failure_overlay (names : List String) (d : List (String × Bool)) :
    List (String × Bool) :=
  names.foldl (fun d0 k => dictAssign d0 k false) d

/-- The heater_on dict as initialised by CDRAState.__init__ (CDRA.py 59). -/
def initHeaterDict : List (String × Bool) :=
  [("desiccant_1", false), ("desiccant_3", false), ("sorbent_2", false), ("sorbent_4", false)]

/-- A heater name that is not one of the four bed names. -/
def bogusName : String :=
  "not_a_bed"

theorem control_path (scen : FailureScenario) (s : CDRAState) :
    (control scen s).path_1_active =
      if flipCond scen s.time then ! s.path_1_active else s.path_1_active := rfl

theorem control_heater (scen : FailureScenario) (s : CDRAState) :
    (control scen s).heater_on = heaterCmd (control scen s).path_1_active := rfl

theorem control_saturation (scen : FailureScenario) (s : CDRAState) :
    (control scen s).saturation = s.saturation := rfl

theorem control_time (scen : FailureScenario) (s : CDRAState) :
    (control scen s).time = s.time := rfl

theorem control_co2 (scen : FailureScenario) (s : CDRAState) :
    (control scen s).co2_content = s.co2_content := rfl

theorem foldl_setHeater (l : List Bed) (f : Bed → Bool) (b : Bed) :
    (l.foldl (fun g k => setHeater g k false) f) b = if b ∈ l then false else f b := by
  induction l generalizing f with
  | nil => simp
  | cons a t ih =>
      simp only [List.foldl_cons, ih, setHeater, List.mem_cons]
      by_cases h1 : b ∈ t <;> by_cases h2 : b = a <;> simp [h1, h2]

theorem apply_failures_heater (scen : FailureScenario) (s : CDRAState) (b : Bed) :
    (apply_failures scen s).heater_on b =
      if b ∈ scen.heater_failure then false else s.heater_on b := by
  have hfold : (apply_failures scen s).heater_on b =
      (scen.heater_failure.foldl (fun g k => setHeater g k false) s.heater_on) b := by
    unfold apply_failures
    split_ifs <;> rfl
  rw [hfold, foldl_setHeater]

theorem apply_failures_saturation (scen : FailureScenario) (s : CDRAState) (b : Bed) :
    (apply_failures scen s).saturation b =
      if filterSatActiveAt scen s.time then 1 else s.saturation b := by
  unfold apply_failures
  split_ifs with h1 h2 h2 <;> rfl

theorem apply_failures_eff (scen : FailureScenario) (s : CDRAState) (b : Bed) :
    (apply_failures scen s).adsorption_eff b =
      if filterSatActiveAt scen s.time then
        BASE_ADSORPTION_EFF + MAX_ADSORPTION_EFF_INCREMENT * 1
      else s.adsorption_eff b := by
  unfold apply_failures
  split_ifs with h1 h2 h2 <;> rfl

theorem apply_failures_path (scen : FailureScenario) (s : CDRAState) :
    (apply_failures scen s).path_1_active = s.path_1_active := by
  unfold apply_failures
  split_ifs with h1 h2 h2 <;> rfl

theorem apply_failures_time (scen : FailureScenario) (s : CDRAState) :
    (apply_failures scen s).time = s.time := by
  unfold apply_failures
  split_ifs with h1 h2 h2 <;> rfl

theorem apply_failures_co2 (scen : FailureScenario) (s : CDRAState) :
    (apply_failures scen s).co2_content = s.co2_content := by
  unfold apply_failures
  split_ifs with h1 h2 h2 <;> rfl

theorem timestep_fst (scen : FailureScenario) (s0 : CDRAState) :
    (timestep scen s0).1 =
      { apply_failures scen s0 with
        saturation := newSat (apply_failures scen s0)
        adsorption_eff := newEff (apply_failures scen s0) } := rfl

theorem timestep_C_out (scen : FailureScenario) (s0 : CDRAState) :
    (timestep scen s0).2.1 =
      if 0 ≤ etaOf (timestep scen s0).1 then
        (apply_failures scen s0).co2_content * (1 - etaOf (timestep scen s0).1)
      else
        (apply_failures scen s0).co2_content * etaOf (timestep scen s0).1 := rfl

theorem tick_saturation (scen : FailureScenario) (s : CDRAState) :
    (tick scen s).saturation = newSat (apply_failures scen (control scen s)) := rfl

theorem tick_eff (scen : FailureScenario) (s : CDRAState) :
    (tick scen s).adsorption_eff = newEff (apply_failures scen (control scen s)) := rfl

theorem tick_time (scen : FailureScenario) (s : CDRAState) :
    (tick scen s).time = s.time + 1 := by
  show (apply_failures scen (control scen s)).time + 1 = s.time + 1
  rw [apply_failures_time, control_time]

theorem tick_path (scen : FailureScenario) (s : CDRAState) :
    (tick scen s).path_1_active = (control scen s).path_1_active := by
  show (apply_failures scen (control scen s)).path_1_active = _
  rw [apply_failures_path]

theorem run_succ (scens : Nat → FailureScenario) (n : Nat) :
    run scens (n + 1) = tick (scens n) (run scens n) := rfl

theorem run_time (scens : Nat → FailureScenario) : ∀ n, (run scens n).time = n := by
  intro n
  induction n with
  | zero => rfl
  | succ k ih => rw [run_succ, tick_time, ih]

theorem not_flipCond_of_lt (scen : FailureScenario) (t : Nat)
    (h : t < VALVE_SWITCH_INTERVAL) : ¬ flipCond scen t := by
  intro hf
  rcases hf with ⟨-, h0, hne⟩
  rw [Nat.mod_eq_of_lt h] at h0
  exact hne h0

theorem run_path_early (scens : Nat → FailureScenario) :
    ∀ n, n ≤ VALVE_SWITCH_INTERVAL → (run scens n).path_1_active = true := by
  intro n
  induction n with
  | zero => intro _; rfl
  | succ k ih =>
      intro hk
      rw [run_succ, tick_path, control_path, run_time]
      have hkk : k < VALVE_SWITCH_INTERVAL := lt_of_lt_of_le (Nat.lt_succ_self k) hk
      rw [if_neg (not_flipCond_of_lt _ _ hkk)]
      exact ih (le_of_lt hkk)

theorem adsorb_step_bounds (x : ℚ) (h0 : 0 ≤ x) :
    0 ≤ adsorb_step x ∧ adsorb_step x ≤ 1 := by
  unfold adsorb_step
  constructor
  · refine le_min ?_ (by norm_num)
    have : (0 : ℚ) ≤ DT / SATURATION_TIME_CONSTANT := by norm_num [DT, SATURATION_TIME_CONSTANT]
    linarith
  · exact min_le_right _ _

theorem regen_step_bounds (x : ℚ) (h1 : x ≤ 1) :
    0 ≤ regen_step x ∧ regen_step x ≤ 1 := by
  unfold regen_step
  constructor
  · exact le_max_right _ _
  · refine max_le ?_ (by norm_num)
    have : (0 : ℚ) ≤ REGENERATION_RATE_MULTIPLIER * DT / SATURATION_TIME_CONSTANT := by
      norm_num [REGENERATION_RATE_MULTIPLIER, DT, SATURATION_TIME_CONSTANT]
    linarith

theorem newSat_shape (s : CDRAState) (b : Bed) :
    newSat s b = s.saturation b ∨ newSat s b = adsorb_step (s.saturation b) ∨
      newSat s b = regen_step (s.saturation b) := by
  simp only [newSat]
  cases hps : s.path_1_active <;> cases b <;>
    first
      | exact Or.inr (Or.inl rfl)
      | (split_ifs with hh <;> first
          | exact Or.inr (Or.inr rfl)
          | exact Or.inl rfl)

theorem newSat_bounds (s : CDRAState)
    (h : ∀ b, 0 ≤ s.saturation b ∧ s.saturation b ≤ 1) (b : Bed) :
    0 ≤ newSat s b ∧ newSat s b ≤ 1 := by
  rcases newSat_shape s b with hs | hs | hs <;> rw [hs]
  · exact h b
  · exact adsorb_step_bounds _ (h b).1
  · exact regen_step_bounds _ (h b).2

theorem apply_failures_sat_bounds (scen : FailureScenario) (s : CDRAState)
    (h : ∀ b, 0 ≤ s.saturation b ∧ s.saturation b ≤ 1) (b : Bed) :
    0 ≤ (apply_failures scen s).saturation b ∧ (apply_failures scen s).saturation b ≤ 1 := by
  rw [apply_failures_saturation]
  split_ifs with hf
  · norm_num
  · exact h b

theorem run_sat_bounds (scens : Nat → FailureScenario) :
    ∀ n, ∀ b, 0 ≤ (run scens n).saturation b ∧ (run scens n).saturation b ≤ 1 := by
  intro n
  induction n with
  | zero =>
      intro b
      constructor <;> norm_num [run, initState, INITIAL_SATURATION_LEVEL]
  | succ k ih =>
      intro b
      rw [run_succ, tick_saturation]
      refine newSat_bounds _ ?_ b
      intro b2
      refine apply_failures_sat_bounds _ _ ?_ b2
      intro b3
      rw [control_saturation]
      exact ih b3

/-- C1: for every reachable state (initial state, then any number of ticks of
control followed by timestep, under any per-tick failure scenario), every
bed saturation lies in the closed interval from 0 to 1 at every tick
boundary. -/
theorem saturation_bounds (scens : Nat → FailureScenario) (n : Nat) (b : Bed) :
    0 ≤ (run scens n).saturation b ∧ (run scens n).saturation b ≤ 1 :=
  run_sat_bounds scens n b

/-- C4: after apply_failures runs at a tick, air_flow_rate equals the
scenario degraded_flow_rate exactly when fan_degraded is active and the tick
lies in the inclusive window, and equals the nominal AIR_FLOW_RATE at every
other tick; the value is rewritten on every call, never sticky. -/
theorem fan_degradation_flow (scen : FailureScenario) (s : CDRAState) :
    (apply_failures scen s).air_flow_rate =
      if fanDegradedAt scen s.time then scen.degraded_flow_rate else AIR_FLOW_RATE := by
  unfold apply_failures
  split_ifs with h1 h2 h2 <;> rfl

/-- C2: during one invocation of control at tick t, path_1_active flips
exactly when t mod VALVE_SWITCH_INTERVAL is 0, t is not 0, and no active
valve_stuck window contains t; in particular it never flips at tick 0 and
never flips inside an active valve_stuck window. -/
theorem valve_flip_iff (scen : FailureScenario) (s : CDRAState) :
    (control scen s).path_1_active ≠ s.path_1_active ↔
      (s.time % VALVE_SWITCH_INTERVAL = 0 ∧ s.time ≠ 0 ∧ ¬ valveStuckAt scen s.time) := by
  rw [control_path]
  by_cases hf : flipCond scen s.time
  · rw [if_pos hf]
    rcases hf with ⟨hst, h0, hne⟩
    constructor
    · intro _
      exact ⟨h0, hne, hst⟩
    · intro _
      cases s.path_1_active <;> simp
  · rw [if_neg hf]
    constructor
    · intro h
      exact absurd rfl h
    · rintro ⟨h0, hne, hst⟩
      exact absurd (show flipCond scen s.time from ⟨hst, h0, hne⟩) hf

/-- C3: after control and the heater failure overlay of apply_failures have
run, a bed heater is on exactly when the bed is in the regenerating pair of
the possibly just flipped valve position and the bed is not listed in the
scenario heater_failure list; every listed bed has its heater forced off
at every tick regardless of valve position. -/
theorem heater_overlay (scen : FailureScenario) (s : CDRAState) (b : Bed) :
    ((apply_failures scen (control scen s)).heater_on b = true ↔
      (regenPair (control scen s).path_1_active b ∧ b ∉ scen.heater_failure)) ∧
    (b ∈ scen.heater_failure → (apply_failures scen (control scen s)).heater_on b = false) := by
  have h := apply_failures_heater scen (control scen s) b
  rw [control_heater] at h
  constructor
  · rw [h]
    by_cases hm : b ∈ scen.heater_failure
    · simp [hm]
    · rw [if_neg hm]
      simp only [hm, not_false_iff, and_true]
      cases hpp : (control scen s).path_1_active <;> cases b <;>
        simp [heaterCmd, regenPair]
  · intro hm
    rw [h, if_pos hm]

/-- A scenario whose heater_failure list names desiccant_3. -/
def heaterFailScen : FailureScenario :=
  { defaultScenario with heater_failure := [Bed.desiccant_3] }

/-- Witness for C3 at a concrete scenario listing desiccant_3 as failed. -/
theorem heater_overlay_witness :
    Bed.desiccant_3 ∈ heaterFailScen.heater_failure ∧
      (apply_failures heaterFailScen
        (control heaterFailScen initState)).heater_on Bed.desiccant_3 = false :=
  ⟨by decide, (heater_overlay heaterFailScen initState Bed.desiccant_3).2 (by decide)⟩

/-- C5: composing the pressure-to-mass-fraction conversion with the
mass-fraction-to-pressure conversion returns the input exactly, in exact
rational arithmetic with the constants of simulation_config.py. -/
theorem conversion_round_trip (x : ℚ) :
    kg_per_kg_air_to_mmhg (mmhg_to_kg_per_kg_air x) = x := by
  unfold kg_per_kg_air_to_mmhg mmhg_to_kg_per_kg_air STANDARD_PRESSURE_MMHG
    MOLAR_MASS_CO2 MOLAR_MASS_AIR MMHG_TO_PA
  ring_nf

/-- C6: update_cabin_concentration sets co2_content to exactly the two-space
mixing expression with the constant environmental input term, applies no
clamping (at a concrete pathological input the unclamped result is
negative), and modifies no other field of the state. -/
theorem cabin_mixing_update :
    (∀ (s : CDRAState) (C_out flow : ℚ),
      (update_cabin_concentration s C_out flow).co2_content =
        (1 - flow / M_CABIN) * s.co2_content + (flow / M_CABIN) * C_out +
          CO2_INPUT_MEAN / M_CABIN ∧
      (update_cabin_concentration s C_out flow).saturation = s.saturation ∧
      (update_cabin_concentration s C_out flow).adsorption_eff = s.adsorption_eff ∧
      (update_cabin_concentration s C_out flow).time = s.time ∧
      (update_cabin_concentration s C_out flow).air_flow_rate = s.air_flow_rate ∧
      (update_cabin_concentration s C_out flow).moisture_content = s.moisture_content ∧
      (update_cabin_concentration s C_out flow).co2_removed_total = s.co2_removed_total ∧
      (update_cabin_concentration s C_out flow).heater_on = s.heater_on ∧
      (update_cabin_concentration s C_out flow).path_1_active = s.path_1_active) ∧
    (update_cabin_concentration initState (-1) 100).co2_content < 0 := by
  constructor
  · intro s C_out flow
    exact ⟨rfl, rfl, rfl, rfl, rfl, rfl, rfl, rfl, rfl⟩
  · norm_num [update_cabin_concentration, initState, M_CABIN, CO2_INPUT_MEAN,
      CO2_CONTENT_INIT]

theorem newSat_path1_d1 (s : CDRAState) (hp : s.path_1_active = true) :
    newSat s Bed.desiccant_1 = adsorb_step (s.saturation Bed.desiccant_1) := by
  simp only [newSat, hp]

theorem newSat_path1_s2 (s : CDRAState) (hp : s.path_1_active = true) :
    newSat s Bed.sorbent_2 = adsorb_step (s.saturation Bed.sorbent_2) := by
  simp only [newSat, hp]

theorem newSat_path1_d3 (s : CDRAState) (hp : s.path_1_active = true)
    (hh : s.heater_on Bed.desiccant_3 = true) :
    newSat s Bed.desiccant_3 = regen_step (s.saturation Bed.desiccant_3) := by
  simp only [newSat, hp, hh, if_true]

theorem newSat_path1_s4 (s : CDRAState) (hp : s.path_1_active = true)
    (hh : s.heater_on Bed.sorbent_4 = true) :
    newSat s Bed.sorbent_4 = regen_step (s.saturation Bed.sorbent_4) := by
  simp only [newSat, hp, hh, if_true]

theorem adsorb_step_incr (x : ℚ) (h : x + DT / SATURATION_TIME_CONSTANT ≤ 1) :
    adsorb_step x = x + DT / SATURATION_TIME_CONSTANT :=
  min_eq_left h

theorem regen_step_zero : regen_step 0 = 0 := by
  unfold regen_step
  rw [max_eq_right]
  norm_num [REGENERATION_RATE_MULTIPLIER, DT, SATURATION_TIME_CONSTANT]

theorem no_filterSat_default : ∀ t, ¬ filterSatActiveAt defaultScenario t := by
  intro t hf
  rcases hf with ⟨hflag, -, -⟩
  simp [defaultScenario] at hflag

theorem nominal_closed_form :
    ∀ n, n ≤ 199 →
      (run nominalScens n).saturation Bed.desiccant_1 = (n : ℚ) / 600 ∧
      (run nominalScens n).saturation Bed.sorbent_2 = (n : ℚ) / 600 ∧
      (run nominalScens n).saturation Bed.desiccant_3 = 0 ∧
      (run nominalScens n).saturation Bed.sorbent_4 = 0 := by
  intro n
  induction n with
  | zero =>
      intro _
      refine ⟨?_, ?_, ?_, ?_⟩ <;> norm_num [run, initState, INITIAL_SATURATION_LEVEL]
  | succ k ih =>
      intro hk
      have hk198 : k ≤ 198 := by omega
      obtain ⟨ihd1, ihs2, ihd3, ihs4⟩ := ih (by omega)
      have htime : (run nominalScens k).time = k := run_time _ k
      have hpath : (run nominalScens k).path_1_active = true :=
        run_path_early nominalScens k (by norm_num [VALVE_SWITCH_INTERVAL]; omega)
      have hcp : (control defaultScenario (run nominalScens k)).path_1_active = true := by
        rw [control_path, htime,
          if_neg (not_flipCond_of_lt _ _ (by norm_num [VALVE_SWITCH_INTERVAL]; omega))]
        exact hpath
      have hAF := apply_failures defaultScenario (control defaultScenario (run nominalScens k))
      have hAFpath :
          (apply_failures defaultScenario
            (control defaultScenario (run nominalScens k))).path_1_active = true := by
        rw [apply_failures_path]
        exact hcp
      have hAFsat : ∀ b,
          (apply_failures defaultScenario
            (control defaultScenario (run nominalScens k))).saturation b =
            (run nominalScens k).saturation b := by
        intro b
        rw [apply_failures_saturation, if_neg (no_filterSat_default _), control_saturation]
      have hAFh3 :
          (apply_failures defaultScenario
            (control defaultScenario (run nominalScens k))).heater_on Bed.desiccant_3 = true := by
        rw [apply_failures_heater]
        rw [if_neg (by simp [defaultScenario])]
        rw [control_heater, hcp]
        rfl
      have hAFh4 :
          (apply_failures defaultScenario
            (control defaultScenario (run nominalScens k))).heater_on Bed.sorbent_4 = true := by
        rw [apply_failures_heater]
        rw [if_neg (by simp [defaultScenario])]
        rw [control_heater, hcp]
        rfl
      have hcast : (k : ℚ) / 600 + DT / SATURATION_TIME_CONSTANT = ((k + 1 : ℕ) : ℚ) / 600 := by
        push_cast
        norm_num [DT, SATURATION_TIME_CONSTANT]
        ring
      have hle : (k : ℚ) / 600 + DT / SATURATION_TIME_CONSTANT ≤ 1 := by
        have hkq : (k : ℚ) ≤ 198 := by exact_mod_cast hk198
        norm_num [DT, SATURATION_TIME_CONSTANT]
        linarith
      refine ⟨?_, ?_, ?_, ?_⟩
      · rw [run_succ, tick_saturation]
        simp only [nominalScens]
        rw [newSat_path1_d1 _ hAFpath, hAFsat, ihd1,
          adsorb_step_incr _ hle, hcast]
      · rw [run_succ, tick_saturation]
        simp only [nominalScens]
        rw [newSat_path1_s2 _ hAFpath, hAFsat, ihs2,
          adsorb_step_incr _ hle, hcast]
      · rw [run_succ, tick_saturation]
        simp only [nominalScens]
        rw [newSat_path1_d3 _ hAFpath hAFh3, hAFsat, ihd3, regen_step_zero]
      · rw [run_succ, tick_saturation]
        simp only [nominalScens]
        rw [newSat_path1_s4 _ hAFpath hAFh4, hAFsat, ihs4, regen_step_zero]

/-- C8: starting from the initial state with no failures, over ticks 0
through 198 the saturation of desiccant_1 follows n over 600 (ending at
199 over 600 after 199 ticks), sorbent_2 tracks desiccant_1 exactly,
desiccant_1 strictly increases each tick, and desiccant_3 stays 0. -/
theorem nominal_199_ticks (n : Nat) (h : n ≤ 199) :
    (run nominalScens n).saturation Bed.desiccant_1 = (n : ℚ) / 600 ∧
    (run nominalScens n).saturation Bed.sorbent_2 =
      (run nominalScens n).saturation Bed.desiccant_1 ∧
    (run nominalScens n).saturation Bed.desiccant_3 = 0 ∧
    (n < 199 →
      (run nominalScens n).saturation Bed.desiccant_1 <
        (run nominalScens (n + 1)).saturation Bed.desiccant_1) := by
  obtain ⟨h1, h2, h3, -⟩ := nominal_closed_form n h
  refine ⟨h1, by rw [h1, h2], h3, ?_⟩
  intro hn
  obtain ⟨g1, -, -, -⟩ := nominal_closed_form (n + 1) (by omega)
  rw [h1, g1]
  push_cast
  linarith

/-- Witness for C8 at the concrete tick count 199. -/
theorem nominal_199_ticks_witness :
    (199 : Nat) ≤ 199 ∧
      (run nominalScens 199).saturation Bed.desiccant_1 = ((199 : Nat) : ℚ) / 600 :=
  ⟨le_refl 199, (nominal_199_ticks 199 (le_refl 199)).1⟩

theorem filterScen_active_10 : filterSatActiveAt filterScen 10 := by
  refine ⟨rfl, ?_, ?_⟩ <;> norm_num [filterScen]

theorem filter_control_path10 :
    (control filterScen (run filterScens 10)).path_1_active = true := by
  rw [control_path, run_time,
    if_neg (not_flipCond_of_lt _ _ (by norm_num [VALVE_SWITCH_INTERVAL]))]
  exact run_path_early filterScens 10 (by norm_num [VALVE_SWITCH_INTERVAL])

theorem filter_AF_path10 :
    (apply_failures filterScen (control filterScen (run filterScens 10))).path_1_active = true := by
  rw [apply_failures_path]
  exact filter_control_path10

theorem filter_AF_sat10 (b : Bed) :
    (apply_failures filterScen (control filterScen (run filterScens 10))).saturation b = 1 := by
  rw [apply_failures_saturation, control_time, run_time, if_pos filterScen_active_10]

theorem filter_AF_heat3 :
    (apply_failures filterScen
      (control filterScen (run filterScens 10))).heater_on Bed.desiccant_3 = true := by
  rw [apply_failures_heater, if_neg (by simp [filterScen, defaultScenario]),
    control_heater, filter_control_path10]
  rfl

theorem adsorb_step_one : adsorb_step 1 = 1 := by
  unfold adsorb_step
  rw [min_eq_right]
  norm_num [DT, SATURATION_TIME_CONSTANT]

theorem regen_step_one : regen_step 1 = 299/300 := by
  unfold regen_step
  rw [max_eq_left (by norm_num [REGENERATION_RATE_MULTIPLIER, DT, SATURATION_TIME_CONSTANT])]
  norm_num [REGENERATION_RATE_MULTIPLIER, DT, SATURATION_TIME_CONSTANT]

/-- C7 counterexample: with filter_saturation active on [5, 15], at the tick
boundary after the full pipeline of tick 10 has run, the adsorption
efficiency of desiccant_1 is NOT base plus max increment (the physics step
has recomputed it from the saturated bed, giving the base value), and the
saturation of desiccant_3 is NOT 1 (the heated regenerating bed decayed). -/
theorem filter_sat_tick10_boundary_ce :
    (run filterScens 11).adsorption_eff Bed.desiccant_1 ≠
      BASE_ADSORPTION_EFF + MAX_ADSORPTION_EFF_INCREMENT ∧
    (run filterScens 11).saturation Bed.desiccant_3 ≠ 1 := by
  have heff : (run filterScens 11).adsorption_eff =
      newEff (apply_failures filterScen (control filterScen (run filterScens 10))) := by
    rw [run_succ, tick_eff]
    simp only [filterScens]
  have hsat : (run filterScens 11).saturation =
      newSat (apply_failures filterScen (control filterScen (run filterScens 10))) := by
    rw [run_succ, tick_saturation]
    simp only [filterScens]
  constructor
  · rw [heff]
    unfold newEff
    rw [newSat_path1_d1 _ filter_AF_path10, filter_AF_sat10, adsorb_step_one]
    norm_num [BASE_ADSORPTION_EFF, MAX_ADSORPTION_EFF_INCREMENT]
  · rw [hsat, newSat_path1_d3 _ filter_AF_path10 filter_AF_heat3, filter_AF_sat10,
      regen_step_one]
    norm_num

/-- C7 amended: with filter_saturation active on [5, 15], at tick 10
immediately after control and apply_failures have run (before the physics
update of the same tick), every bed has saturation 1 and adsorption
efficiency base plus max increment; the property does not survive to the
tick boundary. -/
theorem filter_sat_tick10_after_overlay (b : Bed) :
    (apply_failures filterScen (control filterScen (run filterScens 10))).saturation b = 1 ∧
    (apply_failures filterScen (control filterScen (run filterScens 10))).adsorption_eff b =
      BASE_ADSORPTION_EFF + MAX_ADSORPTION_EFF_INCREMENT := by
  refine ⟨filter_AF_sat10 b, ?_⟩
  rw [apply_failures_eff, control_time, run_time, if_pos filterScen_active_10]
  ring

theorem afterPhysics_path (scens : Nat → FailureScenario) (n : Nat) :
    (afterPhysics scens n).path_1_active =
      (control (scens n) (run scens n)).path_1_active := by
  show (apply_failures (scens n) (control (scens n) (run scens n))).path_1_active = _
  rw [apply_failures_path]

theorem afterPhysics_heater (scens : Nat → FailureScenario) (n : Nat) (b : Bed) :
    (afterPhysics scens n).heater_on b =
      (apply_failures (scens n) (control (scens n) (run scens n))).heater_on b := rfl

theorem afterPhysics_saturation (scens : Nat → FailureScenario) (n : Nat) :
    (afterPhysics scens n).saturation =
      newSat (apply_failures (scens n) (control (scens n) (run scens n))) := rfl

theorem afterPhysics_eff (scens : Nat → FailureScenario) (n : Nat) (b : Bed) :
    (afterPhysics scens n).adsorption_eff b =
      BASE_ADSORPTION_EFF + MAX_ADSORPTION_EFF_INCREMENT *
        (1 - (afterPhysics scens n).saturation b) := rfl

theorem afterPhysics_sat_bounds (scens : Nat → FailureScenario) (n : Nat) (b : Bed) :
    0 ≤ (afterPhysics scens n).saturation b ∧ (afterPhysics scens n).saturation b ≤ 1 := by
  rw [afterPhysics_saturation]
  refine newSat_bounds _ ?_ b
  intro b2
  refine apply_failures_sat_bounds _ _ ?_ b2
  intro b3
  rw [control_saturation]
  exact run_sat_bounds scens n b3

theorem afterPhysics_active_heater_off (scens : Nat → FailureScenario) (n : Nat) :
    (afterPhysics scens n).heater_on
      (activeSorbent (afterPhysics scens n).path_1_active) = false := by
  rw [afterPhysics_path]
  rw [afterPhysics_heater]
  rw [apply_failures_heater, control_heater]
  cases hpp : (control (scens n) (run scens n)).path_1_active <;>
    simp [activeSorbent, heaterCmd]

theorem outletConc_eq (scens : Nat → FailureScenario) (n : Nat) :
    outletConc scens n =
      if 0 ≤ etaOf (afterPhysics scens n) then
        (run scens n).co2_content * (1 - etaOf (afterPhysics scens n))
      else
        (run scens n).co2_content * etaOf (afterPhysics scens n) := by
  unfold outletConc afterPhysics
  rw [timestep_C_out, apply_failures_co2, control_co2]

theorem etaOf_afterPhysics (scens : Nat → FailureScenario) (n : Nat) :
    etaOf (afterPhysics scens n) =
      (afterPhysics scens n).adsorption_eff
        (activeSorbent (afterPhysics scens n).path_1_active) := by
  have hh := afterPhysics_active_heater_off scens n
  unfold etaOf
  cases hpp : (afterPhysics scens n).path_1_active
  · rw [hpp] at hh
    simp only [activeSorbent, Bool.false_eq_true, if_false] at hh ⊢
    rw [if_pos hh]
  · rw [hpp] at hh
    simp only [activeSorbent, if_true] at hh ⊢
    rw [if_pos hh]

/-- C10: in the executed order (control, then timestep which first runs
apply_failures), the heater of the path-active sorbent is off when the
outlet efficiency is selected, so the desorption branch is unreachable:
timestep returns C_out equal to C_in times one minus the active sorbent
efficiency, that efficiency lies between the base efficiency and base plus
max increment, and C_out is nonnegative whenever the incoming cabin CO2
content is nonnegative. -/
theorem desorption_unreachable (scens : Nat → FailureScenario) (n : Nat) :
    (afterPhysics scens n).heater_on
        (activeSorbent (afterPhysics scens n).path_1_active) = false ∧
    outletConc scens n =
      (run scens n).co2_content *
        (1 - (afterPhysics scens n).adsorption_eff
          (activeSorbent (afterPhysics scens n).path_1_active)) ∧
    BASE_ADSORPTION_EFF ≤
      (afterPhysics scens n).adsorption_eff
        (activeSorbent (afterPhysics scens n).path_1_active) ∧
    (afterPhysics scens n).adsorption_eff
        (activeSorbent (afterPhysics scens n).path_1_active) ≤
      BASE_ADSORPTION_EFF + MAX_ADSORPTION_EFF_INCREMENT ∧
    (0 ≤ (run scens n).co2_content → 0 ≤ outletConc scens n) := by
  have hsb := afterPhysics_sat_bounds scens n
    (activeSorbent (afterPhysics scens n).path_1_active)
  have heff := afterPhysics_eff scens n
    (activeSorbent (afterPhysics scens n).path_1_active)
  have hlow : BASE_ADSORPTION_EFF ≤
      (afterPhysics scens n).adsorption_eff
        (activeSorbent (afterPhysics scens n).path_1_active) := by
    rw [heff]
    norm_num [MAX_ADSORPTION_EFF_INCREMENT]
    linarith [hsb.2]
  have hhigh : (afterPhysics scens n).adsorption_eff
      (activeSorbent (afterPhysics scens n).path_1_active) ≤
      BASE_ADSORPTION_EFF + MAX_ADSORPTION_EFF_INCREMENT := by
    rw [heff]
    norm_num [MAX_ADSORPTION_EFF_INCREMENT]
    linarith [hsb.1]
  have heta := etaOf_afterPhysics scens n
  have hpos : 0 ≤ etaOf (afterPhysics scens n) := by
    rw [heta]
    have : (0 : ℚ) ≤ BASE_ADSORPTION_EFF := by norm_num [BASE_ADSORPTION_EFF]
    linarith
  have hout : outletConc scens n =
      (run scens n).co2_content *
        (1 - (afterPhysics scens n).adsorption_eff
          (activeSorbent (afterPhysics scens n).path_1_active)) := by
    rw [outletConc_eq, if_pos hpos, heta]
  refine ⟨afterPhysics_active_heater_off scens n, hout, hlow, hhigh, ?_⟩
  intro hc
  rw [hout]
  refine mul_nonneg hc ?_
  have : BASE_ADSORPTION_EFF + MAX_ADSORPTION_EFF_INCREMENT ≤ 1 := by
    norm_num [BASE_ADSORPTION_EFF, MAX_ADSORPTION_EFF_INCREMENT]
  linarith

/-- Witness for C10 at the initial tick of the no-failure run. -/
theorem desorption_unreachable_witness :
    0 ≤ (run nominalScens 0).co2_content ∧ 0 ≤ outletConc nominalScens 0 :=
  ⟨by norm_num [run, initState, CO2_CONTENT_INIT],
   (desorption_unreachable nominalScens 0).2.2.2.2
     (by norm_num [run, initState, CO2_CONTENT_INIT])⟩

/-- C9 counterexample: invoking the heater failure overlay with a name that
is not one of the four bed names does not fail fast with any
configuration-error signal; it completes silently, and Python dict
assignment inserts the unknown key into heater_on mapped to false. -/
theorem unknown_heater_silent_ce :
    heater_failure_overlay [bogusName] initHeaterDict =
      initHeaterDict ++ [(bogusName, false)] := by
  rfl

/-- C9 amended: for any heater name absent from the heater_on dict, the
overlay completes silently and appends the name mapped to false (Python
dict assignment semantics); no error is signalled. -/
theorem unknown_heater_silent (k : String)
    (h : initHeaterDict.any (fun p => p.1 == k) = false) :
    heater_failure_overlay [k] initHeaterDict = initHeaterDict ++ [(k, false)] := by
  simp only [heater_failure_overlay, List.foldl_cons, List.foldl_nil, dictAssign, h,
    Bool.false_eq_true, if_false]

/-- Witness for C9 at the concrete unknown name. -/
theorem unknown_heater_silent_witness :
    initHeaterDict.any (fun p => p.1 == bogusName) = false ∧
      heater_failure_overlay [bogusName] initHeaterDict =
        initHeaterDict ++ [(bogusName, false)] :=
  ⟨by rfl, unknown_heater_silent bogusName (by rfl)⟩

end CDRA
